import Mathlib

/-!
Verification of the pigweed `pw_kernel` spin-lock primitive and console
backends against their natural-language specification.

The spin-lock implementation (`spinlock` crate: `BareSpinLock`,
`SpinLock<T>` and their guards) is exercised by
`src/pw_kernel/kernel/sync/tests/spinlock_test.rs` but its own source is
not part of the visible tree, so it is modelled from the specification
(sections 3, 4 and 8 of `spec.md`).  The console backends
(`console_backend_stdio.rs`, `console_backend_semihosting.rs`) are
embedded directly from their source, with the host I/O primitives
(`std::io::stdout`, `cortex_m_semihosting::hio::hstdout`) treated as
external parameters whose outcome is supplied to the function.
-/

namespace PwKernel

/-- Modelled from the spec: `LockState`, "a single-bit atomic flag with two
values, `Unlocked` and `Locked`" (spec §3).  The atomic flag of the missing
`spinlock` crate. -/
inductive LockState where
  | unlocked
  | locked
deriving DecidableEq, Repr

/-- Modelled from the spec: `BareSpinLock` "owns one LockState. No payload."
(spec §3).  The bare lock type of the missing `spinlock` crate. -/
structure BareSpinLock where
  state : LockState
deriving DecidableEq, Repr

/-- Modelled from the spec: the bare guard, "a scoped token returned by both
lock kinds representing proof of current ownership" (spec §2).  It carries no
data of its own. -/
structure BareGuard where
deriving DecidableEq, Repr

namespace BareSpinLock

/-- Modelled from the spec: `new() -> BareSpinLock`: "constructs in
`Unlocked` state. No failure mode." (spec §4.1). -/
def new : BareSpinLock := ⟨.unlocked⟩

/-- Modelled from the spec: `try_lock(&self) -> Option<Guard>`: "performs one
atomic test-and-set attempt. Returns `Some(guard)` if the lock was `Unlocked`
and is now `Locked`; returns `None` without side effects if it was already
`Locked`. Never blocks." (spec §4.1).  State passing makes the atomic flag
explicit: the result pairs the optional guard with the post-call lock. -/
def try_lock (s : BareSpinLock) : Option BareGuard × BareSpinLock :=
  match s.state with
  | .unlocked => (some ⟨⟩, ⟨.locked⟩)
  | .locked => (none, s)

/-- Modelled from the spec: guard release, "dropping the guard atomically
transitions `Locked` → `Unlocked`" (spec §4.1).  Destroying the guard is the
sole caller of this transition. -/
def release (_s : BareSpinLock) : BareSpinLock := ⟨.unlocked⟩

/-- Modelled from the spec: `lock(&self) -> Guard` "blocks the caller
(busy-waits, re-testing the atomic flag) until the state transitions from
`Unlocked` to `Locked` in a single atomic step" (spec §4.1).  On a
single-core target with no competing acquirer the flag never changes
between re-tests, so the spin loop re-tests the same state; `fuel` bounds
the number of re-tests so the loop is a total function, and exhausting it
models an unfinished spin (`none`). -/
def lockSpin (s : BareSpinLock) : Nat → Option (BareGuard × BareSpinLock)
  | 0 => none
  | fuel + 1 =>
    match s.try_lock with
    | (some g, s') => some (g, s')
    | (none, _) => s.lockSpin fuel

/-- Modelled from the spec: the results of `n` successive `try_lock` calls on
the same lock with no intervening release, threading the lock state through;
`true` records a call that returned `Some(guard)`. -/
def tryLockResults : BareSpinLock → Nat → List Bool
  | _, 0 => []
  | s, n + 1 =>
    let (r, s') := s.try_lock
    r.isSome :: s'.tryLockResults n

end BareSpinLock

/-- Modelled from the spec: `SpinLock<T>` "owns one LockState plus exactly
one instance of value type `T`" (spec §3).  The value-carrying lock of the
missing `spinlock` crate. -/
structure SpinLock (T : Type) where
  state : LockState
  value : T
deriving DecidableEq, Repr

/-- Modelled from the spec: the value-carrying guard "additionally grants
read and mutable access to the protected `T` for its lifetime" (spec §3).
Reads and writes through the guard act on the value stored in the lock, so
the guard itself is only the ownership token. -/
structure ValueGuard where
deriving DecidableEq, Repr

namespace SpinLock

variable {T : Type}

/-- Modelled from the spec: `new(initial: T) -> SpinLock<T>`: "stores
`initial` alongside an `Unlocked` state flag" (spec §4.2). -/
def new (initial : T) : SpinLock T := ⟨.unlocked, initial⟩

/-- Modelled from the spec: `try_lock(&self) -> Option<ValueGuard<T>>`:
"same non-blocking semantics as §4.1, wrapping value access" (spec §4.2). -/
def try_lock (s : SpinLock T) : Option ValueGuard × SpinLock T :=
  match s.state with
  | .unlocked => (some ⟨⟩, ⟨.locked, s.value⟩)
  | .locked => (none, s)

/-- Modelled from the spec: reading the protected value through a live
guard (`*guard` in the test): the guard dereferences to the stored `T`
(spec §4.2). -/
def guard_read (s : SpinLock T) : T := s.value

/-- Modelled from the spec: writing the protected value through a live
guard (`*guard = v` in the test): mutations performed through the guard
update the single stored instance of `T` (spec §4.2). -/
def guard_write (s : SpinLock T) (v : T) : SpinLock T := ⟨s.state, v⟩

/-- Modelled from the spec: guard destruction "releases the lock regardless
of whether the value was read, written, or untouched during the critical
section" (spec §4.2); the stored value persists across the release. -/
def release (s : SpinLock T) : SpinLock T := ⟨.unlocked, s.value⟩

/-- Modelled from the spec: the busy-wait `lock(&self) -> ValueGuard<T>`,
"same blocking/atomic semantics as §4.1" (spec §4.2), with the same fuel
bound as `BareSpinLock.lockSpin`. -/
def lockSpin (s : SpinLock T) : Nat → Option (ValueGuard × SpinLock T)
  | 0 => none
  | fuel + 1 =>
    match s.try_lock with
    | (some g, s') => some (g, s')
    | (none, _) => s.lockSpin fuel

/-- Modelled from the spec: the results of `n` successive `try_lock` calls on
the same value-carrying lock with no intervening release, threading the lock
state through; `true` records a call that returned `Some(guard)`. -/
def tryLockResults : SpinLock T → Nat → List Bool
  | _, 0 => []
  | s, n + 1 =>
    let (r, s') := s.try_lock
    r.isSome :: s'.tryLockResults n

end SpinLock

/-- Modelled from the spec: the operations of the bare-lock state machine
(spec §4.1 "State machine"): an acquisition attempt via `try_lock`, a
blocking acquisition via `lock` (taken here only when it completes, i.e.
when the flag is unlocked), and guard destruction. -/
inductive BareOp where
  | tryAcquire
  | acquire
  | release
deriving DecidableEq, Repr

/-- Modelled from the spec: one step of the bare-lock state machine
(spec §4.1): `tryAcquire` applies `try_lock`'s state effect, `acquire`
applies a completed `lock` (which only completes by performing the
`Unlocked --acquire--> Locked` transition), `release` applies guard
destruction. -/
def BareSpinLock.step (s : BareSpinLock) : BareOp → BareSpinLock
  | .tryAcquire => (s.try_lock).2
  | .acquire =>
    match s.lockSpin 1 with
    | some (_, s') => s'
    | none => s
  | .release => s.release

/-- Modelled from the spec: running a sequence of state-machine operations
from a starting lock state (spec §4.1 "State machine"). -/
def BareSpinLock.run : BareSpinLock → List BareOp → BareSpinLock
  | s, [] => s
  | s, op :: ops => (s.step op).run ops

/-- Modelled from the spec: the number of `Locked --release--> Unlocked`
transitions actually observed while running a sequence of operations
(spec §8, "N observed transitions"). -/
def BareSpinLock.releaseCount : BareSpinLock → List BareOp → Nat
  | _, [] => 0
  | s, op :: ops =>
    let s' := s.step op
    (if s.state = .locked ∧ s'.state = .unlocked then 1 else 0) + s'.releaseCount ops

/-- Modelled from the spec: constructing and destroying one guard — a
successful acquisition followed by the guard's destruction (spec §8). -/
def guardCycle : List BareOp := [.tryAcquire, .release]

/-- Modelled from the spec: constructing and destroying `n` guards in
sequence (spec §8). -/
def guardCycles : Nat → List BareOp
  | 0 => []
  | n + 1 => guardCycle ++ guardCycles n

end PwKernel

namespace PwConsole

/-- The `pw_status::Error` variants produced by the two console backends:
`Error::Unavailable`, `Error::DataLoss` and `Error::Unknown`. -/
inductive Error where
  | Unavailable
  | DataLoss
  | Unknown
deriving DecidableEq, Repr

/-- The closed set of failure causes the console backends may report:
channel unavailable, data not fully transferred, unknown I/O failure. -/
def backendErrorSet : List Error := [.Unavailable, .DataLoss, .Unknown]

namespace Semihosting

/-- From `console_backend_semihosting.rs`: `console_backend_write(buf)`.
The two host-side outcomes are parameters: `hstdoutOk` is whether
`hstdout()` obtains the host stdout channel, `writeAllOk` is whether
`stdout.write_all(buf)` transfers the whole buffer.  The source maps the
first failure to `Error::Unavailable`, the second to `Error::DataLoss`,
and otherwise returns `Ok(buf.len())`. -/
def console_backend_write (hstdoutOk : Bool) (writeAllOk : Bool)
    (buf : List Nat) : Except Error Nat :=
  if !hstdoutOk then .error .Unavailable
  else if !writeAllOk then .error .DataLoss
  else .ok buf.length

/-- From `console_backend_semihosting.rs`: `console_backend_flush()`
returns `Ok(())` unconditionally. -/
def console_backend_flush : Except Error Unit := .ok ()

end Semihosting

namespace Stdio

/-- From `console_backend_stdio.rs`: `console_backend_write(buf)` forwards
the buffer once to `stdout().lock().write(buf)`; `hostWrite` is that single
host call's outcome (a byte count, possibly partial, or an I/O error).
Any host error is mapped to `Error::Unknown`. -/
def console_backend_write (hostWrite : Except Unit Nat) : Except Error Nat :=
  match hostWrite with
  | .ok n => .ok n
  | .error _ => .error .Unknown

/-- From `console_backend_stdio.rs`: `console_backend_flush()` forwards
once to `stdout().lock().flush()`; `hostFlush` is that single host call's
outcome.  Any host error is mapped to `Error::Unknown`. -/
def console_backend_flush (hostFlush : Except Unit Unit) : Except Error Unit :=
  match hostFlush with
  | .ok _ => .ok ()
  | .error _ => .error .Unknown

end Stdio

end PwConsole

namespace PwKernel

/-! ### Helper lemmas about the spin-lock model -/

lemma bare_try_lock_unlocked (s : BareSpinLock) (h : s.state = .unlocked) :
    s.try_lock = (some ⟨⟩, ⟨.locked⟩) := by
  obtain ⟨st⟩ := s
  cases st
  · rfl
  · simp at h

lemma bare_try_lock_locked (s : BareSpinLock) (h : s.state = .locked) :
    s.try_lock = (none, s) := by
  obtain ⟨st⟩ := s
  cases st
  · simp at h
  · rfl

lemma spin_try_lock_unlocked {T : Type} (s : SpinLock T) (h : s.state = .unlocked) :
    s.try_lock = (some ⟨⟩, ⟨.locked, s.value⟩) := by
  obtain ⟨st, v⟩ := s
  cases st
  · rfl
  · simp at h

lemma spin_try_lock_locked {T : Type} (s : SpinLock T) (h : s.state = .locked) :
    s.try_lock = (none, s) := by
  obtain ⟨st, v⟩ := s
  cases st
  · simp at h
  · rfl

lemma bare_lockSpin_unlocked (s : BareSpinLock) (h : s.state = .unlocked) (fuel : Nat) :
    s.lockSpin (fuel + 1) = some (⟨⟩, ⟨.locked⟩) := by
  unfold BareSpinLock.lockSpin
  rw [bare_try_lock_unlocked s h]

lemma bare_lockSpin_locked (s : BareSpinLock) (h : s.state = .locked) :
    ∀ fuel, s.lockSpin fuel = none := by
  intro fuel
  induction fuel with
  | zero => rfl
  | succ n ih =>
    unfold BareSpinLock.lockSpin
    rw [bare_try_lock_locked s h]
    exact ih

lemma spin_lockSpin_unlocked {T : Type} (s : SpinLock T) (h : s.state = .unlocked)
    (fuel : Nat) : s.lockSpin (fuel + 1) = some (⟨⟩, ⟨.locked, s.value⟩) := by
  unfold SpinLock.lockSpin
  rw [spin_try_lock_unlocked s h]

lemma spin_lockSpin_locked {T : Type} (s : SpinLock T) (h : s.state = .locked) :
    ∀ fuel, s.lockSpin fuel = none := by
  intro fuel
  induction fuel with
  | zero => rfl
  | succ n ih =>
    unfold SpinLock.lockSpin
    rw [spin_try_lock_locked s h]
    exact ih

lemma bare_tryLockResults_locked (s : BareSpinLock) (h : s.state = .locked) :
    ∀ n, s.tryLockResults n = List.replicate n false := by
  intro n
  induction n with
  | zero => rfl
  | succ n ih =>
    unfold BareSpinLock.tryLockResults
    rw [bare_try_lock_locked s h]
    simp [ih, List.replicate_succ]

lemma bare_tryLockResults_unlocked (s : BareSpinLock) (h : s.state = .unlocked)
    (n : Nat) : s.tryLockResults (n + 1) = true :: List.replicate n false := by
  unfold BareSpinLock.tryLockResults
  rw [bare_try_lock_unlocked s h]
  simp [bare_tryLockResults_locked ⟨.locked⟩ rfl n]

lemma spin_tryLockResults_locked {T : Type} (s : SpinLock T) (h : s.state = .locked) :
    ∀ n, s.tryLockResults n = List.replicate n false := by
  intro n
  induction n with
  | zero => rfl
  | succ n ih =>
    unfold SpinLock.tryLockResults
    rw [spin_try_lock_locked s h]
    simp [ih, List.replicate_succ]

lemma spin_tryLockResults_unlocked {T : Type} (s : SpinLock T) (h : s.state = .unlocked)
    (n : Nat) : s.tryLockResults (n + 1) = true :: List.replicate n false := by
  unfold SpinLock.tryLockResults
  rw [spin_try_lock_unlocked s h]
  simp [spin_tryLockResults_locked (⟨.locked, s.value⟩ : SpinLock T) rfl n]

lemma bare_run_append (l₁ l₂ : List BareOp) (s : BareSpinLock) :
    s.run (l₁ ++ l₂) = (s.run l₁).run l₂ := by
  induction l₁ generalizing s with
  | nil => rfl
  | cons op ops ih =>
    simp only [List.cons_append, BareSpinLock.run]
    exact ih (s.step op)

lemma bare_releaseCount_append (l₁ l₂ : List BareOp) (s : BareSpinLock) :
    s.releaseCount (l₁ ++ l₂) = s.releaseCount l₁ + (s.run l₁).releaseCount l₂ := by
  induction l₁ generalizing s with
  | nil => simp [BareSpinLock.releaseCount, BareSpinLock.run]
  | cons op ops ih =>
    simp only [List.cons_append, BareSpinLock.releaseCount, BareSpinLock.run,
      List.append_eq]
    rw [ih (s.step op)]
    ring

lemma guardCycle_run : (BareSpinLock.mk .unlocked).run guardCycle = ⟨.unlocked⟩ := by
  decide

lemma guardCycle_releaseCount :
    (BareSpinLock.mk .unlocked).releaseCount guardCycle = 1 := by
  decide

lemma guardCycles_run_count (n : Nat) :
    (BareSpinLock.mk .unlocked).run (guardCycles n) = ⟨.unlocked⟩ ∧
    (BareSpinLock.mk .unlocked).releaseCount (guardCycles n) = n := by
  induction n with
  | zero => exact ⟨rfl, rfl⟩
  | succ n ih =>
    constructor
    · simp only [guardCycles]
      rw [bare_run_append, guardCycle_run, ih.1]
    · simp only [guardCycles]
      rw [bare_releaseCount_append, guardCycle_releaseCount, guardCycle_run, ih.2]
      ring

lemma bare_try_lock_some (s : BareSpinLock) (g : BareGuard) (s' : BareSpinLock)
    (h : s.try_lock = (some g, s')) : s.state = .unlocked ∧ s' = ⟨.locked⟩ := by
  obtain ⟨st⟩ := s
  cases st
  · refine ⟨rfl, ?_⟩
    rw [bare_try_lock_unlocked ⟨.unlocked⟩ rfl] at h
    injection h with h1 h2
    exact h2.symm
  · rw [bare_try_lock_locked ⟨.locked⟩ rfl] at h
    injection h with h1 h2
    simp at h1

lemma bare_lockSpin_some (s : BareSpinLock) (fuel : Nat) (g : BareGuard)
    (s' : BareSpinLock) (h : s.lockSpin fuel = some (g, s')) :
    s.state = .unlocked ∧ s' = ⟨.locked⟩ := by
  obtain ⟨st⟩ := s
  cases st
  · refine ⟨rfl, ?_⟩
    cases fuel with
    | zero => simp [BareSpinLock.lockSpin] at h
    | succ n =>
      rw [bare_lockSpin_unlocked ⟨.unlocked⟩ rfl] at h
      injection h with h1
      injection h1 with h2 h3
      exact h3.symm
  · rw [bare_lockSpin_locked ⟨.locked⟩ rfl fuel] at h
    simp at h

lemma spin_try_lock_some {T : Type} (s : SpinLock T) (g : ValueGuard) (s' : SpinLock T)
    (h : s.try_lock = (some g, s')) : s.state = .unlocked ∧ s' = ⟨.locked, s.value⟩ := by
  obtain ⟨st, v⟩ := s
  cases st
  · refine ⟨rfl, ?_⟩
    rw [spin_try_lock_unlocked ⟨.unlocked, v⟩ rfl] at h
    injection h with h1 h2
    exact h2.symm
  · rw [spin_try_lock_locked ⟨.locked, v⟩ rfl] at h
    injection h with h1 h2
    simp at h1

lemma spin_lockSpin_some {T : Type} (s : SpinLock T) (fuel : Nat) (g : ValueGuard)
    (s' : SpinLock T) (h : s.lockSpin fuel = some (g, s')) :
    s.state = .unlocked ∧ s' = ⟨.locked, s.value⟩ := by
  obtain ⟨st, v⟩ := s
  cases st
  · refine ⟨rfl, ?_⟩
    cases fuel with
    | zero => simp [SpinLock.lockSpin] at h
    | succ n =>
      rw [spin_lockSpin_unlocked ⟨.unlocked, v⟩ rfl] at h
      injection h with h1
      injection h1 with h2 h3
      exact h3.symm
  · rw [spin_lockSpin_locked ⟨.locked, v⟩ rfl fuel] at h
    simp at h

end PwKernel

/-! ### Claim theorems -/

open PwKernel PwConsole

/-- Claim C1: mutual exclusion.  While any guard obtained from `lock` or
`try_lock` is alive (the lock flag is `Locked`, which holds from the moment
the guard is produced), every call to `try_lock` on that same instance
returns `None`; this holds for both the bare and value-carrying variants. -/
theorem spinlock_mutual_exclusion :
    (∀ s : BareSpinLock, s.state = .locked → s.try_lock = (none, s)) ∧
    (∀ (T : Type) (s : SpinLock T), s.state = .locked → s.try_lock = (none, s)) ∧
    (∀ (s : BareSpinLock) (g : BareGuard) (s' : BareSpinLock),
        s.try_lock = (some g, s') → s'.try_lock = (none, s')) ∧
    (∀ (s : BareSpinLock) (fuel : Nat) (g : BareGuard) (s' : BareSpinLock),
        s.lockSpin fuel = some (g, s') → s'.try_lock = (none, s')) ∧
    (∀ (T : Type) (s : SpinLock T) (g : ValueGuard) (s' : SpinLock T),
        s.try_lock = (some g, s') → s'.try_lock = (none, s')) ∧
    (∀ (T : Type) (s : SpinLock T) (fuel : Nat) (g : ValueGuard) (s' : SpinLock T),
        s.lockSpin fuel = some (g, s') → s'.try_lock = (none, s')) := by
  refine ⟨fun s h => bare_try_lock_locked s h,
    fun T s h => spin_try_lock_locked s h, ?_, ?_, ?_, ?_⟩
  · intro s g s' h
    obtain ⟨-, h2⟩ := bare_try_lock_some s g s' h
    subst h2
    exact bare_try_lock_locked _ rfl
  · intro s fuel g s' h
    obtain ⟨-, h2⟩ := bare_lockSpin_some s fuel g s' h
    subst h2
    exact bare_try_lock_locked _ rfl
  · intro T s g s' h
    obtain ⟨-, h2⟩ := spin_try_lock_some s g s' h
    subst h2
    exact spin_try_lock_locked _ rfl
  · intro T s fuel g s' h
    obtain ⟨-, h2⟩ := spin_lockSpin_some s fuel g s' h
    subst h2
    exact spin_try_lock_locked _ rfl

/-- Witness for C1: on a concretely locked bare lock and a concretely locked
value lock, `try_lock` returns the empty result. -/
theorem spinlock_mutual_exclusion_witness :
    (BareSpinLock.mk .locked).try_lock = (none, ⟨.locked⟩) ∧
    (SpinLock.mk .locked (37 : Nat)).try_lock = (none, ⟨.locked, 37⟩) :=
  ⟨spinlock_mutual_exclusion.1 ⟨.locked⟩ rfl,
   spinlock_mutual_exclusion.2.1 Nat ⟨.locked, 37⟩ rfl⟩

/-- Claim C2: release enables exactly one reacquisition.  After the live
guard of a locked instance is dropped (`release`), among any number of
subsequent `try_lock` calls exactly the first succeeds (no double
acquisition, no permanent lock-out), and a blocking `lock` also succeeds;
for both variants. -/
theorem spinlock_release_reacquisition :
    (∀ (s : BareSpinLock) (n : Nat), s.state = .locked →
        s.release.tryLockResults (n + 1) = true :: List.replicate n false) ∧
    (∀ (s : BareSpinLock) (fuel : Nat), s.state = .locked →
        s.release.lockSpin (fuel + 1) = some (⟨⟩, ⟨.locked⟩)) ∧
    (∀ (T : Type) (s : SpinLock T) (n : Nat), s.state = .locked →
        s.release.tryLockResults (n + 1) = true :: List.replicate n false) ∧
    (∀ (T : Type) (s : SpinLock T) (fuel : Nat), s.state = .locked →
        s.release.lockSpin (fuel + 1) = some (⟨⟩, ⟨.locked, s.value⟩)) := by
  refine ⟨?_, ?_, ?_, ?_⟩
  · intro s n _
    exact bare_tryLockResults_unlocked s.release rfl n
  · intro s fuel _
    exact bare_lockSpin_unlocked s.release rfl fuel
  · intro T s n _
    exact spin_tryLockResults_unlocked s.release rfl n
  · intro T s fuel _
    exact spin_lockSpin_unlocked s.release rfl fuel

/-- Witness for C2: dropping the guard of a concretely locked bare lock, the
next three `try_lock` calls succeed exactly once (the first). -/
theorem spinlock_release_reacquisition_witness :
    (BareSpinLock.mk .locked).release.tryLockResults (2 + 1) =
      true :: List.replicate 2 false :=
  spinlock_release_reacquisition.1 ⟨.locked⟩ 2 rfl

/-- Claim C3: value visibility across critical sections.  A value written
through the guard during one critical section is exactly the value observed
at the start of the next successfully acquired critical section; in
particular a `SpinLock` constructed with `false`, written to `true` through
the guard and released yields `true` to the next lock holder. -/
theorem spinlock_value_visibility :
    (∀ (T : Type) (s : SpinLock T) (v : T), s.state = .locked →
        ((s.guard_write v).release).try_lock = (some ⟨⟩, ⟨.locked, v⟩) ∧
        ((s.guard_write v).release).lockSpin 1 = some (⟨⟩, ⟨.locked, v⟩) ∧
        (⟨.locked, v⟩ : SpinLock T).guard_read = v) ∧
    ((SpinLock.new false).lockSpin 1 = some (⟨⟩, ⟨.locked, false⟩) ∧
      (((⟨.locked, false⟩ : SpinLock Bool).guard_write true).release).lockSpin 1 =
        some (⟨⟩, ⟨.locked, true⟩) ∧
      (⟨.locked, true⟩ : SpinLock Bool).guard_read = true) := by
  refine ⟨?_, rfl, rfl, rfl⟩
  intro T s v _
  exact ⟨rfl, rfl, rfl⟩

/-- Witness for C3: a concrete locked `SpinLock Nat` written to `5` and
released hands `5` to the next `try_lock`. -/
theorem spinlock_value_visibility_witness :
    (((⟨.locked, (0 : Nat)⟩ : SpinLock Nat).guard_write 5).release).try_lock =
      (some ⟨⟩, ⟨.locked, 5⟩) :=
  (spinlock_value_visibility.1 Nat ⟨.locked, 0⟩ 5 rfl).1

/-- Claim C4: fresh-lock acquisition.  `BareSpinLock.new` and
`SpinLock.new initial` construct in the `Unlocked` state (total functions,
no failure mode), and on a fresh lock of either variant any sequence of
`try_lock` calls before a release succeeds exactly once: the first returns
a guard and every further call returns `None`. -/
theorem spinlock_fresh_acquisition :
    BareSpinLock.new.state = .unlocked ∧
    (∀ (T : Type) (initial : T), (SpinLock.new initial).state = .unlocked) ∧
    (∀ n : Nat, BareSpinLock.new.tryLockResults (n + 1) =
      true :: List.replicate n false) ∧
    (∀ (T : Type) (initial : T) (n : Nat),
        (SpinLock.new initial).tryLockResults (n + 1) =
          true :: List.replicate n false) :=
  ⟨rfl, fun _ _ => rfl,
   fun n => bare_tryLockResults_unlocked BareSpinLock.new rfl n,
   fun _ initial n => spin_tryLockResults_unlocked (SpinLock.new initial) rfl n⟩

/-- Claim C5: `try_lock` contention semantics.  One test-and-set attempt:
it returns a guard exactly when the lock was `Unlocked` (leaving it
`Locked`), and returns `None` with no side effects — the lock state and, for
the value-carrying variant, the protected value unchanged — when the lock
was already `Locked`. -/
theorem spinlock_try_lock_contention :
    (∀ s : BareSpinLock, s.state = .unlocked → s.try_lock = (some ⟨⟩, ⟨.locked⟩)) ∧
    (∀ s : BareSpinLock, s.state = .locked → s.try_lock = (none, s)) ∧
    (∀ (s : BareSpinLock) (g : BareGuard) (s' : BareSpinLock),
        s.try_lock = (some g, s') → s.state = .unlocked ∧ s'.state = .locked) ∧
    (∀ (T : Type) (s : SpinLock T), s.state = .unlocked →
        s.try_lock = (some ⟨⟩, ⟨.locked, s.value⟩)) ∧
    (∀ (T : Type) (s : SpinLock T), s.state = .locked → s.try_lock = (none, s)) ∧
    (∀ (T : Type) (s : SpinLock T) (g : ValueGuard) (s' : SpinLock T),
        s.try_lock = (some g, s') →
          s.state = .unlocked ∧ s'.state = .locked ∧ s'.value = s.value) := by
  refine ⟨bare_try_lock_unlocked, bare_try_lock_locked, ?_,
    fun T s h => spin_try_lock_unlocked s h, fun T s h => spin_try_lock_locked s h, ?_⟩
  · intro s g s' h
    obtain ⟨h1, h2⟩ := bare_try_lock_some s g s' h
    subst h2
    exact ⟨h1, rfl⟩
  · intro T s g s' h
    obtain ⟨h1, h2⟩ := spin_try_lock_some s g s' h
    subst h2
    exact ⟨h1, rfl, rfl⟩

/-- Witness for C5: on a concretely unlocked bare lock `try_lock` succeeds
and locks; on a concretely locked one it returns `None` unchanged. -/
theorem spinlock_try_lock_contention_witness :
    (BareSpinLock.mk .unlocked).try_lock = (some ⟨⟩, ⟨.locked⟩) ∧
    (BareSpinLock.mk .locked).try_lock = (none, ⟨.locked⟩) :=
  ⟨spinlock_try_lock_contention.1 ⟨.unlocked⟩ rfl,
   spinlock_try_lock_contention.2.1 ⟨.locked⟩ rfl⟩

/-- Claim C6: exactly-once, destruction-only release.  Dropping a guard
transitions `Locked` to `Unlocked`; no other state-machine operation ever
unlocks a locked lock; release is unconditional whether or not the protected
value was written; and running N construct/destroy guard cycles from a fresh
lock leaves it `Unlocked` after exactly N observed release transitions. -/
theorem spinlock_release_exactly_once :
    (∀ s : BareSpinLock, s.state = .locked → s.release.state = .unlocked) ∧
    (∀ (T : Type) (s : SpinLock T), s.state = .locked → s.release.state = .unlocked) ∧
    (∀ (T : Type) (s : SpinLock T) (v : T),
        (s.guard_write v).release.state = .unlocked ∧
        (s.guard_write v).release.value = v) ∧
    (∀ (s : BareSpinLock) (op : BareOp),
        op ≠ .release → s.state = .locked → (s.step op).state = .locked) ∧
    (∀ n : Nat, BareSpinLock.new.run (guardCycles n) = ⟨.unlocked⟩ ∧
        BareSpinLock.new.releaseCount (guardCycles n) = n) := by
  refine ⟨fun s _ => rfl, fun T s _ => rfl, fun T s v => ⟨rfl, rfl⟩, ?_,
    fun n => guardCycles_run_count n⟩
  intro s op hop h
  obtain ⟨st⟩ := s
  cases st
  · simp at h
  · cases op
    · rfl
    · rfl
    · exact absurd rfl hop

/-- Witness for C6: dropping the guard of a concretely locked bare lock
unlocks it, and a non-release operation on a locked lock leaves it locked. -/
theorem spinlock_release_exactly_once_witness :
    (BareSpinLock.mk .locked).release.state = .unlocked ∧
    ((BareSpinLock.mk .locked).step .tryAcquire).state = .locked :=
  ⟨spinlock_release_exactly_once.1 ⟨.locked⟩ rfl,
   spinlock_release_exactly_once.2.2.2.1 ⟨.locked⟩ .tryAcquire (by decide) rfl⟩

/-- Claim C7: `lock` termination.  The busy-wait loop re-tests the flag and
acquires only by the single atomic `Unlocked` to `Locked` step; it has no
failure result, and with no competing acquirer it returns at the very first
re-test — independently of the remaining fuel — whenever the lock is
currently `Unlocked`; for both variants. -/
theorem spinlock_lock_termination :
    (∀ (s : BareSpinLock) (fuel : Nat), s.state = .unlocked →
        s.lockSpin (fuel + 1) = some (⟨⟩, ⟨.locked⟩)) ∧
    (∀ (T : Type) (s : SpinLock T) (fuel : Nat), s.state = .unlocked →
        s.lockSpin (fuel + 1) = some (⟨⟩, ⟨.locked, s.value⟩)) ∧
    (∀ (s : BareSpinLock) (fuel : Nat) (g : BareGuard) (s' : BareSpinLock),
        s.lockSpin fuel = some (g, s') → s.state = .unlocked ∧ s'.state = .locked) := by
  refine ⟨fun s fuel h => bare_lockSpin_unlocked s h fuel,
    fun T s fuel h => spin_lockSpin_unlocked s h fuel, ?_⟩
  intro s fuel g s' h
  obtain ⟨h1, h2⟩ := bare_lockSpin_some s fuel g s' h
  subst h2
  exact ⟨h1, rfl⟩

/-- Witness for C7: a fresh bare lock is acquired immediately by the spin
loop with a single unit of fuel. -/
theorem spinlock_lock_termination_witness :
    BareSpinLock.new.lockSpin 1 = some (⟨⟩, ⟨.locked⟩) :=
  spinlock_lock_termination.1 BareSpinLock.new 0 rfl

/-- Claim C8: console backend error contract.  For every host outcome and
input buffer, each backend's write returns a byte count or a failure and its
flush returns success or a failure; every failure is drawn from the closed
set of causes Unavailable, DataLoss, Unknown; and a failed host call is
mapped directly to a failure result — the backend never turns it into a
success by retrying. -/
theorem console_backend_error_contract :
    (∀ hostWrite : Except Unit Nat,
        (∃ n, Stdio.console_backend_write hostWrite = .ok n) ∨
        (∃ e, Stdio.console_backend_write hostWrite = .error e ∧
          e ∈ backendErrorSet)) ∧
    (∀ hostFlush : Except Unit Unit,
        Stdio.console_backend_flush hostFlush = .ok () ∨
        (∃ e, Stdio.console_backend_flush hostFlush = .error e ∧
          e ∈ backendErrorSet)) ∧
    (∀ (hOk wOk : Bool) (buf : List Nat),
        (∃ n, Semihosting.console_backend_write hOk wOk buf = .ok n) ∨
        (∃ e, Semihosting.console_backend_write hOk wOk buf = .error e ∧
          e ∈ backendErrorSet)) ∧
    (Semihosting.console_backend_flush = .ok ()) ∧
    (∀ e, Stdio.console_backend_write (.error e) = .error .Unknown) ∧
    (∀ e, Stdio.console_backend_flush (.error e) = .error .Unknown) ∧
    (∀ (wOk : Bool) (buf : List Nat),
        Semihosting.console_backend_write false wOk buf = .error .Unavailable) ∧
    (∀ buf : List Nat,
        Semihosting.console_backend_write true false buf = .error .DataLoss) := by
  refine ⟨?_, ?_, ?_, rfl, fun e => rfl, fun e => rfl, fun wOk buf => rfl,
    fun buf => rfl⟩
  · intro hostWrite
    cases hostWrite with
    | ok n => exact Or.inl ⟨n, rfl⟩
    | error e => exact Or.inr ⟨.Unknown, rfl, by decide⟩
  · intro hostFlush
    cases hostFlush with
    | ok u => exact Or.inl rfl
    | error e => exact Or.inr ⟨.Unknown, rfl, by decide⟩
  · intro hOk wOk buf
    cases hOk
    · exact Or.inr ⟨.Unavailable, rfl, by decide⟩
    · cases wOk
      · exact Or.inr ⟨.DataLoss, rfl, by decide⟩
      · exact Or.inl ⟨buf.length, rfl⟩

/-- Claim C9: the semihosting write reports an exact count.  It returns
`Ok(buf.len())` exactly when the host channel is obtained and the whole
buffer is transferred, `Error::Unavailable` when the channel cannot be
obtained, `Error::DataLoss` when the transfer is incomplete, and any
successful byte count it reports equals the full buffer length. -/
theorem semihosting_write_exact (hOk wOk : Bool) (buf : List Nat) :
    (hOk = true → wOk = true →
      Semihosting.console_backend_write hOk wOk buf = .ok buf.length) ∧
    (hOk = false →
      Semihosting.console_backend_write hOk wOk buf = .error .Unavailable) ∧
    (hOk = true → wOk = false →
      Semihosting.console_backend_write hOk wOk buf = .error .DataLoss) ∧
    (∀ n, Semihosting.console_backend_write hOk wOk buf = .ok n →
      n = buf.length) := by
  refine ⟨?_, ?_, ?_, ?_⟩
  · intro hh hw
    subst hh
    subst hw
    rfl
  · intro hh
    subst hh
    rfl
  · intro hh hw
    subst hh
    subst hw
    rfl
  · intro n hn
    cases hOk
    · simp [Semihosting.console_backend_write] at hn
    · cases wOk
      · simp [Semihosting.console_backend_write] at hn
      · simp [Semihosting.console_backend_write] at hn
        exact hn.symm

/-- Witness for C9: with the host channel available and a complete transfer,
writing a three-byte buffer returns `Ok 3`. -/
theorem semihosting_write_exact_witness :
    Semihosting.console_backend_write true true [10, 20, 30] = .ok 3 :=
  (semihosting_write_exact true true [10, 20, 30]).1 rfl rfl

/-- Claim C10: the semihosting flush never fails.  `console_backend_flush`
is the constant `Ok(())`: it performs no I/O and depends on no state. -/
theorem semihosting_flush_infallible :
    Semihosting.console_backend_flush = .ok () := rfl
